import Mathlib

/-!
# Verification of the NLLB translation API's language-resolution pipeline

Shallow embedding of the repository's orchestration logic:

* `src/handler.py` — batch/event surface: `LANGUAGE_CODE_MAP`,
  `detect_language`, `translate`, `handler`.
* `src/models/nllb_model.py` — REST-surface translator class:
  `NLLBTranslator.LANGUAGE_CODE_MAP`, `detect_language`, `translate`.
* `src/api/endpoints.py` — HTTP endpoint `POST /api/translate`.

The two external capabilities are modelled as oracles:

* detection (`langdetect.detect`): `DetectOracle := String → Option String`,
  `none` standing for the exception `detect` may raise;
* tokenization + generation + decoding (`tokenizer`/`model.generate`/
  `batch_decode`): `GenOracle := String → String → String → Except String String`
  taking source locale tag, target locale tag and text, `Except.error`
  standing for any exception raised in those steps.

Each embedded operation also reports how many times it invoked each
capability (`detectCalls`, `genCalls`), which lets the independence /
"capability is not invoked" claims be stated directly.

Python-specific semantics are embedded explicitly: dictionary `get` with an
eagerly evaluated default argument, truthiness of `None`/`""`, `x or d`,
and `str.strip()` emptiness (restricted to the ASCII whitespace characters,
which is what the repository's inputs exercise).
-/

/-- Result of a call, together with how many times each external capability
was invoked during the call. -/
structure Traced (α : Type) where
  result : α
  detectCalls : Nat
  genCalls : Nat
  deriving Repr, DecidableEq

/-- The detection capability: `langdetect.detect`. `none` models the
exception the library raises (e.g. on empty or undetectable text). -/
abbrev DetectOracle : Type := String → Option String

/-- The generation capability: source locale tag → target locale tag →
text → translation, `Except.error` modelling an exception anywhere in
tokenization, generation or decoding. -/
abbrev GenOracle : Type := String → String → String → Except String String

/-- Table `LANGUAGE_CODE_MAP` from `src/handler.py` lines 15–56, in source
order. -/
def LANGUAGE_CODE_MAP : List (String × String) := [
  ("en", "eng_Latn"), ("ar", "arb_Arab"), ("fr", "fra_Latn"),
  ("es", "spa_Latn"), ("de", "deu_Latn"), ("ru", "rus_Cyrl"),
  ("zh", "zho_Hans"), ("ja", "jpn_Jpan"), ("pt", "por_Latn"),
  ("it", "ita_Latn"), ("nl", "nld_Latn"), ("cs", "ces_Latn"),
  ("pl", "pol_Latn"), ("tr", "tur_Latn"), ("ko", "kor_Hang"),
  ("uk", "ukr_Cyrl"), ("vi", "vie_Latn"), ("id", "ind_Latn"),
  ("fa", "fas_Arab"), ("sv", "swe_Latn"), ("hu", "hun_Latn"),
  ("fi", "fin_Latn"), ("da", "dan_Latn"), ("no", "nob_Latn"),
  ("he", "heb_Hebr"), ("th", "tha_Thai"), ("hi", "hin_Deva"),
  ("bg", "bul_Cyrl"), ("el", "ell_Grek"), ("ro", "ron_Latn"),
  ("sk", "slk_Latn"), ("lt", "lit_Latn"), ("lv", "lvs_Latn"),
  ("et", "est_Latn"), ("sr", "srp_Cyrl"), ("hr", "hrv_Latn"),
  ("sl", "slv_Latn"), ("ca", "cat_Latn"), ("ms", "zsm_Latn"),
  ("ur", "urd_Arab")]

/-- Table `NLLBTranslator.LANGUAGE_CODE_MAP` from `src/models/nllb_model.py`
lines 21–62, in source order. -/
def NLLB_LANGUAGE_CODE_MAP : List (String × String) := [
  ("en", "eng_Latn"), ("ar", "arb_Arab"), ("fr", "fra_Latn"),
  ("es", "spa_Latn"), ("de", "deu_Latn"), ("ru", "rus_Cyrl"),
  ("zh", "zho_Hans"), ("ja", "jpn_Jpan"), ("pt", "por_Latn"),
  ("it", "ita_Latn"), ("nl", "nld_Latn"), ("cs", "ces_Latn"),
  ("pl", "pol_Latn"), ("tr", "tur_Latn"), ("ko", "kor_Hang"),
  ("uk", "ukr_Cyrl"), ("vi", "vie_Latn"), ("id", "ind_Latn"),
  ("fa", "fas_Arab"), ("sv", "swe_Latn"), ("hu", "hun_Latn"),
  ("fi", "fin_Latn"), ("da", "dan_Latn"), ("no", "nob_Latn"),
  ("he", "heb_Hebr"), ("th", "tha_Thai"), ("hi", "hin_Deva"),
  ("bg", "bul_Cyrl"), ("el", "ell_Grek"), ("ro", "ron_Latn"),
  ("sk", "slk_Latn"), ("lt", "lit_Latn"), ("lv", "lvs_Latn"),
  ("et", "est_Latn"), ("sr", "srp_Cyrl"), ("hr", "hrv_Latn"),
  ("sl", "slv_Latn"), ("ca", "cat_Latn"), ("ms", "zsm_Latn"),
  ("ur", "urd_Arab")]

/-- Python `dict.get(k)`: first matching entry's value, `None` when absent. -/
def mapGet (m : List (String × String)) (k : String) : Option String :=
  (m.find? (fun p => p.1 == k)).map Prod.snd

/-- Python `k in dict`. -/
def mapMem (m : List (String × String)) (k : String) : Bool :=
  (m.find? (fun p => p.1 == k)).isSome

/-- Python `dict[k]`: indexing. Every use in the sources indexes with the
key `"en"`, which is present, so the `getD` default branch is unreachable
(proved below as `mapGet_en`/`mapGet_en_nllb`). -/
def pyIndex (m : List (String × String)) (k : String) : String :=
  (mapGet m k).getD ("KeyError: " ++ k)

/-- Characters removed by Python `str.strip()` (ASCII whitespace). -/
def isPySpace (c : Char) : Bool :=
  c == ' ' || c == '\t' || c == '\n' || c == '\r' ||
  c == '\x0b' || c == '\x0c'

/-- Python `not text.strip()`: true iff the text is empty or consists only
of whitespace characters. -/
def pyStrippedEmpty (s : String) : Bool := s.toList.all isPySpace

/-- Python truthiness of an optional string value: `None` and `""` are
falsy, every other string is truthy. -/
def pyTruthy : Option String → Bool
  | none => false
  | some s => s ≠ ""

/-- Python `x or d` for an optional string `x`: `d` when `x` is `None` or
`""`, else `x` itself. -/
def pyOrStr (x : Option String) (d : String) : String :=
  match x with
  | none => d
  | some s => if s = "" then d else s

/-- Function `detect_language` from `src/handler.py` lines 78–102: returns the pair
(NLLB locale tag, short code); any detection failure or unsupported
detected code falls back to `(LANGUAGE_CODE_MAP['en'], 'en')`. -/
def detectLanguageH (detect : DetectOracle) (text : String) :
    String × String :=
  match detect text with
  | some lang =>
    match mapGet LANGUAGE_CODE_MAP lang with
    | some nllb => (nllb, lang)
    | none => (pyIndex LANGUAGE_CODE_MAP "en", "en")
  | none => (pyIndex LANGUAGE_CODE_MAP "en", "en")

/-- Method `NLLBTranslator.detect_language` from `src/models/nllb_model.py`
lines 78–102: returns only the NLLB locale tag; `if nllb_code:` is Python
truthiness on the looked-up value. -/
def detectLanguageN (detect : DetectOracle) (text : String) : String :=
  match detect text with
  | some lang =>
    match mapGet NLLB_LANGUAGE_CODE_MAP lang with
    | some nllb =>
      if nllb = "" then pyIndex NLLB_LANGUAGE_CODE_MAP "en" else nllb
    | none => pyIndex NLLB_LANGUAGE_CODE_MAP "en"
  | none => pyIndex NLLB_LANGUAGE_CODE_MAP "en"

/-- Target-language resolution, identical in `src/handler.py` lines 129–134
and `src/models/nllb_model.py` lines 121–126: table lookup with English
substituted on a miss. It takes no detection oracle, mirroring that the
source's target branch contains no detection call. -/
def resolveTarget (m : List (String × String)) (target : String) : String :=
  if mapMem m target then pyIndex m target else pyIndex m "en"

/-- Source-language resolution of `src/handler.py` lines 136–146: detection
runs only when no source is given or the given source is absent from the
table. Returns ((locale tag, short code), number of detection calls). -/
def resolveSourceH (detect : DetectOracle) (text : String) :
    Option String → (String × String) × Nat
  | none => (detectLanguageH detect text, 1)
  | some s =>
    match mapGet LANGUAGE_CODE_MAP s with
    | some tag => ((tag, s), 0)
    | none => (detectLanguageH detect text, 1)

/-- Source-language resolution of `src/models/nllb_model.py` lines 128–134.
The `some` branch embeds
`self.LANGUAGE_CODE_MAP.get(source_language, self.detect_language(text))`:
Python evaluates the default argument eagerly, so detection is invoked
(count 1) even when the explicit code is present in the table. -/
def resolveSourceN (detect : DetectOracle) (text : String) :
    Option String → String × Nat
  | none => (detectLanguageN detect text, 1)
  | some s =>
    let dflt := detectLanguageN detect text
    ((mapGet NLLB_LANGUAGE_CODE_MAP s).getD dflt, 1)

/-- Return value of `translate` in `src/handler.py`: the three dictionary
shapes the function can return. `emptyText` is the early return for
empty/whitespace text (no `target_language` key); `success` and `failure`
carry the original target short code. -/
inductive HandlerTranslateResult where
  | emptyText (sourceLanguage : String)
  | success (translatedText sourceLanguage targetLanguage : String)
  | failure (error sourceLanguage targetLanguage : String)
  deriving Repr, DecidableEq

/-- Function `translate` from `src/handler.py` lines 104–183. -/
def handlerTranslate (detect : DetectOracle) (gen : GenOracle)
    (text targetLanguage : String) (sourceLanguage : Option String) :
    Traced HandlerTranslateResult :=
  if pyStrippedEmpty text then
    ⟨.emptyText (pyOrStr sourceLanguage "en"), 0, 0⟩
  else
    let targetCode := resolveTarget LANGUAGE_CODE_MAP targetLanguage
    let resolved := resolveSourceH detect text sourceLanguage
    let srcTag := resolved.1.1
    let srcShort := resolved.1.2
    match gen srcTag targetCode text with
    | .ok t =>
      ⟨.success t srcShort targetLanguage, resolved.2, 1⟩
    | .error e =>
      ⟨.failure ("Translation error: " ++ e)
        (pyOrStr (some srcShort) "unknown") targetLanguage, resolved.2, 1⟩

/-- Method `NLLBTranslator.translate` from `src/models/nllb_model.py` lines
104–162: returns a bare string on every path — `""` for empty text, the
translation on success, and the message `"Translation error: ..."` (as the
returned string, not an exception) when generation fails. -/
def nllbTranslate (detect : DetectOracle) (gen : GenOracle)
    (text targetLanguage : String) (sourceLanguage : Option String) :
    Traced String :=
  if pyStrippedEmpty text then
    ⟨"", 0, 0⟩
  else
    let targetCode := resolveTarget NLLB_LANGUAGE_CODE_MAP targetLanguage
    let resolved := resolveSourceN detect text sourceLanguage
    match gen resolved.1 targetCode text with
    | .ok t => ⟨t, resolved.2, 1⟩
    | .error e => ⟨"Translation error: " ++ e, resolved.2, 1⟩

/-- Expression `source_language_code.split('_')[0]` from
`src/api/endpoints.py` line 32: the short code the REST surface reports after detection — the prefix
of the locale tag before its first underscore (the whole string when no
underscore occurs, matching Python `split`). -/
def reverseTag (tag : String) : String :=
  String.mk (tag.toList.takeWhile (fun c => c != '_'))

/-- HTTP responses the `/api/translate` endpoint can produce. -/
inductive HttpResponse where
  | ok (translatedText sourceLanguage targetLanguage : String)
  | clientError (detail : String)
  | serverError (detail : String)
  deriving Repr, DecidableEq

/-- HTTP status code of a response. -/
def httpStatus : HttpResponse → Nat
  | .ok _ _ _ => 200
  | .clientError _ => 400
  | .serverError _ => 500

/-- Endpoint `translate` from `src/api/endpoints.py` lines 14–58. When no
source is given it detects once itself and reports
`source_language_code.split('_')[0]`; it then always calls the translator
with a (now present) source string. The translator returns a string on
every path, so the endpoint's `UnsupportedLanguageError` (400) and
`TranslationError` (500) arms are unreachable. -/
def httpTranslate (detect : DetectOracle) (gen : GenOracle)
    (text targetLanguage : String) (sourceLanguage : Option String) :
    Traced HttpResponse :=
  match sourceLanguage with
  | some s =>
    let r := nllbTranslate detect gen text targetLanguage (some s)
    ⟨.ok r.result s targetLanguage, r.detectCalls, r.genCalls⟩
  | none =>
    let slc := detectLanguageN detect text
    let short := reverseTag slc
    let r := nllbTranslate detect gen text targetLanguage (some short)
    ⟨.ok r.result short targetLanguage, r.detectCalls + 1, r.genCalls⟩

/-- The `input` payload of a batch event (`event["input"]`): each field is
either absent (`none`) or a string. -/
structure EventInput where
  text : Option String
  target_language : Option String
  source_language : Option String
  deriving Repr, DecidableEq

/-- Return value of `handler` in `src/handler.py`: either the validation
error dictionary `{"error": ...}` or the dictionary returned by
`translate`. -/
inductive BatchResult where
  | validationError (e : String)
  | translated (r : HandlerTranslateResult)
  deriving Repr, DecidableEq

/-- Function `handler` from `src/handler.py` lines 186–218: `if not text` and
`if not target_language` are Python truthiness checks, so an absent field
and an empty string are rejected alike. -/
def batchHandler (detect : DetectOracle) (gen : GenOracle)
    (input : EventInput) : Traced BatchResult :=
  if ¬ pyTruthy input.text then
    ⟨.validationError "Missing required field: text", 0, 0⟩
  else if ¬ pyTruthy input.target_language then
    ⟨.validationError "Missing required field: target_language", 0, 0⟩
  else
    let r := handlerTranslate detect gen (input.text.getD "")
      (input.target_language.getD "") input.source_language
    ⟨.translated r.result, r.detectCalls, r.genCalls⟩

/-- Sanity: `'en'` is in the batch-surface table with tag `eng_Latn`. -/
theorem mapGet_en : mapGet LANGUAGE_CODE_MAP "en" = some "eng_Latn" := by
  decide

/-- Sanity: `'en'` is in the REST-surface table with tag `eng_Latn`. -/
theorem mapGet_en_nllb :
    mapGet NLLB_LANGUAGE_CODE_MAP "en" = some "eng_Latn" := by
  decide

/-- The two source files define letter-for-letter identical tables. -/
theorem maps_eq : LANGUAGE_CODE_MAP = NLLB_LANGUAGE_CODE_MAP := rfl

/-- Indexing the batch-surface table at `'en'` yields `eng_Latn`. -/
theorem pyIndex_en : pyIndex LANGUAGE_CODE_MAP "en" = "eng_Latn" := by
  decide

/-- A successful lookup returns an entry of the table. -/
theorem mapGet_mem {m : List (String × String)} {k v : String}
    (h : mapGet m k = some v) : (k, v) ∈ m := by
  unfold mapGet at h
  cases hf : m.find? (fun p => p.1 == k) with
  | none => rw [hf] at h; simp at h
  | some p =>
    rw [hf] at h
    simp at h
    have hm := List.mem_of_find?_eq_some hf
    have hp : p.1 = k := by simpa using List.find?_some hf
    have hpk : (k, v) = p := by
      cases p
      simp_all
    rw [hpk]
    exact hm

/-- A key reported absent by `mapMem` has no `mapGet` value. -/
theorem mapGet_eq_none_of_not_mem {m : List (String × String)} {k : String}
    (h : mapMem m k = false) : mapGet m k = none := by
  unfold mapMem at h
  unfold mapGet
  cases hf : m.find? (fun p => p.1 == k) with
  | none => rfl
  | some p => rw [hf] at h; simp at h

/-- C8: the language code table is a true bijection — the short codes
(keys) are pairwise distinct and the locale tags (values) are pairwise
distinct, in both copies of the table. Immutability holds by construction
in the embedding: the tables are constants and every operation above is a
pure function reading them. -/
theorem language_table_bijection :
    (LANGUAGE_CODE_MAP.map Prod.fst).Nodup ∧
    (LANGUAGE_CODE_MAP.map Prod.snd).Nodup ∧
    (NLLB_LANGUAGE_CODE_MAP.map Prod.fst).Nodup ∧
    (NLLB_LANGUAGE_CODE_MAP.map Prod.snd).Nodup := by
  decide

/-- C10: the batch-surface table (`src/handler.py`) and the REST-surface
table (`src/models/nllb_model.py`) are extensionally equal — the same
entries in the same order, hence every lookup agrees. -/
theorem language_maps_extensionally_equal :
    LANGUAGE_CODE_MAP = NLLB_LANGUAGE_CODE_MAP ∧
    ∀ k, mapGet LANGUAGE_CODE_MAP k = mapGet NLLB_LANGUAGE_CODE_MAP k := by
  exact ⟨maps_eq, fun k => by rw [maps_eq]⟩

/-- C2 counterexample: for the key `"en"`, lookup yields `"eng_Latn"` and
reverse (the prefix before the underscore, `split('_')[0]` at
`src/api/endpoints.py` line 32) yields `"eng"`, not the original `"en"`:
the round-trip fails at this concrete key. -/
theorem lookup_reverse_roundtrip_counterexample :
    mapGet NLLB_LANGUAGE_CODE_MAP "en" = some "eng_Latn" ∧
    reverseTag "eng_Latn" = "eng" ∧ ("eng" : String) ≠ "en" := by
  constructor
  · decide
  · constructor
    · rfl
    · decide

/-- C2 amended: for every entry of the table, lookup of the key succeeds
and reverse of the looked-up locale tag is its three-letter ISO-639-3
prefix, which never equals the two-letter key: the lookup-then-reverse
round-trip fails for every short code in the table. -/
theorem lookup_reverse_never_roundtrips :
    ∀ p ∈ NLLB_LANGUAGE_CODE_MAP,
      mapGet NLLB_LANGUAGE_CODE_MAP p.1 = some p.2 ∧
      (reverseTag p.2).length = 3 ∧ p.1.length = 2 ∧
      reverseTag p.2 ≠ p.1 := by
  decide

/-- Closed instance of `lookup_reverse_never_roundtrips` at the entry
`("en", "eng_Latn")`. -/
theorem lookup_reverse_never_roundtrips_witness :
    mapGet NLLB_LANGUAGE_CODE_MAP "en" = some "eng_Latn" ∧
    (reverseTag "eng_Latn").length = 3 ∧ ("en" : String).length = 2 ∧
    reverseTag "eng_Latn" ≠ "en" :=
  lookup_reverse_never_roundtrips ("en", "eng_Latn") (by decide)

/-- C1 (code bug, `src/models/nllb_model.py` line 132): calling the
REST-surface translator with text `"Hello"`, target `"fr"` and the explicit
source `"en"` — which is present in the table — still invokes the detection
capability once, because Python evaluates the `dict.get` default argument
`self.detect_language(text)` eagerly. The detection result is discarded on
a table hit, so the returned result agrees between two different detection
oracles, while the batch-surface `translate` (`src/handler.py` lines
141–146) checks for `None` explicitly and performs zero detection calls on
the same input. -/
theorem explicit_source_hit_still_detects :
    (nllbTranslate (fun _ => some "fr") (fun _ _ _ => .ok "Bonjour")
      "Hello" "fr" (some "en")).detectCalls = 1 ∧
    (nllbTranslate (fun _ => some "fr") (fun _ _ _ => .ok "Bonjour")
      "Hello" "fr" (some "en")).result =
      (nllbTranslate (fun _ => some "de") (fun _ _ _ => .ok "Bonjour")
        "Hello" "fr" (some "en")).result ∧
    (handlerTranslate (fun _ => some "fr") (fun _ _ _ => .ok "Bonjour")
      "Hello" "fr" (some "en")).detectCalls = 0 := by
  refine ⟨by decide, by decide, by decide⟩

/-- C3 (code bug, `src/models/nllb_model.py` lines 160–162): when the
generation step fails (here with message `"boom"`) on the request
`{text: "Hello", target_language: "fr", source_language: "en"}`, the
translator catches the exception and returns the message as the translated
string, so the HTTP surface answers with status 200 whose
`translated_text` is `"Translation error: boom"` — the endpoint's 500 arm
is never reached. -/
theorem translation_failure_returns_success_status :
    (httpTranslate (fun _ => some "en") (fun _ _ _ => .error "boom")
      "Hello" "fr" (some "en")).result =
      .ok "Translation error: boom" "en" "fr" ∧
    httpStatus (httpTranslate (fun _ => some "en")
      (fun _ _ _ => .error "boom") "Hello" "fr" (some "en")).result = 200 := by
  refine ⟨by decide, by decide⟩

/-- C4 counterexample: calling the batch-surface `translate` with
whitespace-only text `" "` and the explicitly provided source code `""`
returns source `"en"`, not the provided `""` — `source_language or "en"`
replaces a provided empty string as well as `None`. -/
theorem empty_text_empty_source_counterexample :
    (handlerTranslate (fun _ => some "fr") (fun _ _ _ => .ok "x") " " "fr"
      (some "")).result = .emptyText "en" ∧
    (handlerTranslate (fun _ => some "fr") (fun _ _ _ => .ok "x") " " "fr"
      (some "")).result ≠ .emptyText "" := by
  refine ⟨by decide, by decide⟩

/-- C4 amended: for empty or whitespace-only text, both `translate`
functions return a success with empty translated text and invoke neither
detection nor generation; the batch-surface result's source code is the
provided source when it is a non-empty string and `"en"` otherwise
(a provided `""` also yields `"en"`), and the REST-surface translator
returns the bare empty string. -/
theorem empty_text_short_circuits (detect : DetectOracle) (gen : GenOracle)
    (text target : String) (source : Option String)
    (h : pyStrippedEmpty text = true) :
    handlerTranslate detect gen text target source =
      ⟨.emptyText (pyOrStr source "en"), 0, 0⟩ ∧
    nllbTranslate detect gen text target source = ⟨"", 0, 0⟩ := by
  constructor
  · simp [handlerTranslate, h]
  · simp [nllbTranslate, h]

/-- Closed instance of `empty_text_short_circuits` at text `" "` with
provided source `"de"`. -/
theorem empty_text_short_circuits_witness :
    pyStrippedEmpty " " = true ∧
    (handlerTranslate (fun _ => some "fr") (fun _ _ _ => .ok "x") " " "fr"
        (some "de") = ⟨.emptyText (pyOrStr (some "de") "en"), 0, 0⟩ ∧
      nllbTranslate (fun _ => some "fr") (fun _ _ _ => .ok "x") " " "fr"
        (some "de") = ⟨"", 0, 0⟩) :=
  ⟨by decide, empty_text_short_circuits (fun _ => some "fr")
    (fun _ _ _ => .ok "x") " " "fr" (some "de") (by decide)⟩

/-- C5: when the requested target short code is absent from the table,
target resolution — a table-only computation that takes no detection
oracle — substitutes the English locale tag `eng_Latn` in both surfaces,
and the batch-surface `translate` never returns its failure shape when the
generation capability succeeds: the request is not failed. -/
theorem unsupported_target_defaults_to_english (detect : DetectOracle)
    (gen : GenOracle) (text target : String) (source : Option String)
    (htgt : mapMem LANGUAGE_CODE_MAP target = false)
    (hgen : ∀ a b c, ∃ t, gen a b c = .ok t) :
    resolveTarget LANGUAGE_CODE_MAP target = "eng_Latn" ∧
    resolveTarget NLLB_LANGUAGE_CODE_MAP target = "eng_Latn" ∧
    ∀ e s t, (handlerTranslate detect gen text target source).result ≠
      .failure e s t := by
  refine ⟨?_, ?_, ?_⟩
  · simp [resolveTarget, htgt, pyIndex_en]
  · rw [← maps_eq]
    simp [resolveTarget, htgt, pyIndex_en]
  · intro e s t
    by_cases hw : pyStrippedEmpty text = true
    · simp [handlerTranslate, hw]
    · obtain ⟨o, hg⟩ := hgen (resolveSourceH detect text source).1.1
        (resolveTarget LANGUAGE_CODE_MAP target) text
      simp [handlerTranslate, hw, hg]

/-- Closed instance of `unsupported_target_defaults_to_english` at the
unsupported target `"xx"`. -/
theorem unsupported_target_defaults_to_english_witness :
    mapMem LANGUAGE_CODE_MAP "xx" = false ∧
    (resolveTarget LANGUAGE_CODE_MAP "xx" = "eng_Latn" ∧
      resolveTarget NLLB_LANGUAGE_CODE_MAP "xx" = "eng_Latn" ∧
      ∀ e s t, (handlerTranslate (fun _ => some "fr")
        (fun _ _ _ => .ok "hola") "Hello" "xx" none).result ≠
          .failure e s t) :=
  ⟨by decide, unsupported_target_defaults_to_english (fun _ => some "fr")
    (fun _ _ _ => .ok "hola") "Hello" "xx" none (by decide)
    (fun _ _ _ => ⟨"hola", rfl⟩)⟩

/-- C6: when an explicit source short code is absent from the table,
source resolution behaves exactly as if no source had been given — it
falls back to automatic detection — and it can never error: the resolved
pair is always an entry of the table, reversed (a supported detected code
and its locale tag, or the English fallback); when detection itself fails
the English fallback `("eng_Latn", "en")` is returned. The REST-surface
resolution likewise hands back its detection result on a table miss. -/
theorem unsupported_source_falls_back_to_detection (detect : DetectOracle)
    (text s : String) (hs : mapMem LANGUAGE_CODE_MAP s = false) :
    resolveSourceH detect text (some s) = resolveSourceH detect text none ∧
    (∃ p ∈ LANGUAGE_CODE_MAP,
      (resolveSourceH detect text (some s)).1 = (p.2, p.1)) ∧
    (detect text = none →
      (resolveSourceH detect text (some s)).1 = ("eng_Latn", "en")) ∧
    (resolveSourceN detect text (some s)).1 = detectLanguageN detect text := by
  have hget := mapGet_eq_none_of_not_mem hs
  have hbranch : resolveSourceH detect text (some s) =
      (detectLanguageH detect text, 1) := by
    simp [resolveSourceH, hget]
  refine ⟨?_, ?_, ?_, ?_⟩
  · rw [hbranch]
    rfl
  · rw [hbranch]
    cases hd : detect text with
    | none =>
      refine ⟨("en", "eng_Latn"), by decide, ?_⟩
      simp [detectLanguageH, hd, pyIndex_en]
    | some lang =>
      cases hl : mapGet LANGUAGE_CODE_MAP lang with
      | none =>
        refine ⟨("en", "eng_Latn"), by decide, ?_⟩
        simp [detectLanguageH, hd, hl, pyIndex_en]
      | some nllb =>
        refine ⟨(lang, nllb), mapGet_mem hl, ?_⟩
        simp [detectLanguageH, hd, hl]
  · intro hd
    rw [hbranch]
    simp [detectLanguageH, hd, pyIndex_en]
  · have hgetN : mapGet NLLB_LANGUAGE_CODE_MAP s = none := by
      rw [← maps_eq]
      exact hget
    simp [resolveSourceN, hgetN]

/-- Closed instance of `unsupported_source_falls_back_to_detection` at the
unsupported explicit source `"xx"` with an oracle detecting `"fr"`. -/
theorem unsupported_source_falls_back_to_detection_witness :
    mapMem LANGUAGE_CODE_MAP "xx" = false ∧
    (resolveSourceH (fun _ => some "fr") "Bonjour" (some "xx") =
        resolveSourceH (fun _ => some "fr") "Bonjour" none ∧
      (∃ p ∈ LANGUAGE_CODE_MAP,
        (resolveSourceH (fun _ => some "fr") "Bonjour" (some "xx")).1 =
          (p.2, p.1)) ∧
      ((fun (_ : String) => some "fr") "Bonjour" = none →
        (resolveSourceH (fun _ => some "fr") "Bonjour" (some "xx")).1 =
          ("eng_Latn", "en")) ∧
      (resolveSourceN (fun _ => some "fr") "Bonjour" (some "xx")).1 =
        detectLanguageN (fun _ => some "fr") "Bonjour") :=
  ⟨by decide, unsupported_source_falls_back_to_detection
    (fun _ => some "fr") "Bonjour" "xx" (by decide)⟩

/-- C7 counterexample: the event `{"input": {"text": ""}}` has the `text`
field present and lacks `target_language`, yet the handler returns the
`text` error — `if not text` in `src/handler.py` line 206 rejects the
present-but-empty string before the target check is reached. -/
theorem empty_text_field_counterexample :
    batchHandler (fun _ => some "fr") (fun _ _ _ => .ok "x")
      ⟨some "", none, none⟩ =
      ⟨.validationError "Missing required field: text", 0, 0⟩ ∧
    (batchHandler (fun _ => some "fr") (fun _ _ _ => .ok "x")
      ⟨some "", none, none⟩).result ≠
      .validationError "Missing required field: target_language" := by
  refine ⟨by decide, by decide⟩

/-- C7 amended: an event whose input lacks the `text` field gets exactly
the `text` validation error, and an event whose input has a non-empty
`text` but lacks `target_language` gets exactly the `target_language`
validation error; in both cases neither detection nor generation is
invoked (no translation is attempted). An event with `text` present but
equal to `""` also gets the `text` error. -/
theorem missing_field_validation (detect : DetectOracle) (gen : GenOracle)
    (input : EventInput) :
    (input.text = none →
      batchHandler detect gen input =
        ⟨.validationError "Missing required field: text", 0, 0⟩) ∧
    (∀ s, input.text = some s → s ≠ "" → input.target_language = none →
      batchHandler detect gen input =
        ⟨.validationError "Missing required field: target_language", 0, 0⟩) := by
  constructor
  · intro h
    simp [batchHandler, pyTruthy, h]
  · intro s hs hne ht
    simp [batchHandler, pyTruthy, hs, hne, ht]

/-- Closed instances of `missing_field_validation`: an event with no
`text` field, and an event with text `"Hello"` and no `target_language`
field. -/
theorem missing_field_validation_witness :
    batchHandler (fun _ => some "fr") (fun _ _ _ => .ok "x")
      ⟨none, some "fr", none⟩ =
      ⟨.validationError "Missing required field: text", 0, 0⟩ ∧
    batchHandler (fun _ => some "fr") (fun _ _ _ => .ok "x")
      ⟨some "Hello", none, none⟩ =
      ⟨.validationError "Missing required field: target_language", 0, 0⟩ :=
  ⟨(missing_field_validation (fun _ => some "fr") (fun _ _ _ => .ok "x")
      ⟨none, some "fr", none⟩).1 rfl,
    (missing_field_validation (fun _ => some "fr") (fun _ _ _ => .ok "x")
      ⟨some "Hello", none, none⟩).2 "Hello" rfl (by decide) rfl⟩

/-- C9: a batch event whose input carries `text` equal to the empty string
is rejected with the `text` validation error whatever the other fields
are; whitespace-only non-empty text with a non-empty target reaches the
empty-translation success; and conversely every empty-translation success
produced by the handler comes from a non-empty whitespace-only text, so
the empty-text success path is unreachable for empty-string input. -/
theorem empty_string_text_rejected (detect : DetectOracle) (gen : GenOracle)
    (tgt src : Option String) :
    (batchHandler detect gen ⟨some "", tgt, src⟩ =
      ⟨.validationError "Missing required field: text", 0, 0⟩) ∧
    (∀ text t, pyStrippedEmpty text = true → text ≠ "" → t ≠ "" →
      batchHandler detect gen ⟨some text, some t, src⟩ =
        ⟨.translated (.emptyText (pyOrStr src "en")), 0, 0⟩) ∧
    (∀ input r, (batchHandler detect gen input).result =
        .translated (.emptyText r) →
      ∃ s, input.text = some s ∧ s ≠ "" ∧ pyStrippedEmpty s = true) := by
  refine ⟨?_, ?_, ?_⟩
  · simp [batchHandler, pyTruthy]
  · intro text t hw hne hte
    simp [batchHandler, pyTruthy, hne, hte, handlerTranslate, hw]
  · intro input r h
    cases hx : input.text with
    | none => simp [batchHandler, pyTruthy, hx] at h
    | some s =>
      by_cases hse : s = ""
      · subst hse
        simp [batchHandler, pyTruthy, hx] at h
      · refine ⟨s, rfl, hse, ?_⟩
        cases ht : input.target_language with
        | none => simp [batchHandler, pyTruthy, hx, hse, ht] at h
        | some t =>
          by_cases hte : t = ""
          · subst hte
            simp [batchHandler, pyTruthy, hx, hse, ht] at h
          · simp [batchHandler, pyTruthy, hx, hse, ht, hte] at h
            by_cases hw : pyStrippedEmpty s = true
            · exact hw
            · exfalso
              cases hg : gen (resolveSourceH detect s input.source_language).1.1
                  (resolveTarget LANGUAGE_CODE_MAP t) s with
              | ok o => simp [handlerTranslate, hw, hg] at h
              | error e => simp [handlerTranslate, hw, hg] at h

/-- Closed instances of `empty_string_text_rejected`: empty-string text is
rejected, and the whitespace-only text `" "` reaches the empty-translation
success. -/
theorem empty_string_text_rejected_witness :
    batchHandler (fun _ => some "fr") (fun _ _ _ => .ok "x")
      ⟨some "", some "fr", some "de"⟩ =
      ⟨.validationError "Missing required field: text", 0, 0⟩ ∧
    batchHandler (fun _ => some "fr") (fun _ _ _ => .ok "x")
      ⟨some " ", some "fr", some "de"⟩ =
      ⟨.translated (.emptyText (pyOrStr (some "de") "en")), 0, 0⟩ :=
  ⟨(empty_string_text_rejected (fun _ => some "fr") (fun _ _ _ => .ok "x")
      (some "fr") (some "de")).1,
    (empty_string_text_rejected (fun _ => some "fr") (fun _ _ _ => .ok "x")
      (some "fr") (some "de")).2.1 " " "fr" (by decide) (by decide)
      (by decide)⟩
